import Mathlib

/-!
Shallow embedding of `backend/sandbox/sandbox.py` (suna).

The module orchestrates a remote sandbox provider (Daytona) and a database
of project records.  The provider and the database are external
collaborators; here they are modelled as oracles: the provider is a record
of response functions over an abstract provider state `σ`, and the database
is a function from a project id to the list of matching rows.  Every
embedded operation additionally returns the list of external calls it
issued, in order, so that "invokes start exactly once" style properties are
facts about that trace.
-/

namespace Suna

/-- Lifecycle states of a workspace, from
`daytona_api_client.models.workspace_state`.  The module under study only
compares against `archived` and `stopped`; the other constructors stand for
every remaining provider state (a freshly started sandbox reports
`started`, i.e. "running"). -/
inductive WorkspaceState where
  | creating
  | restoring
  | destroyed
  | destroying
  | started
  | stopped
  | starting
  | stopping
  | error
  | unknown
  | archiving
  | archived
  deriving DecidableEq, Repr

/-- The `sandbox.instance` sub-object: the locally cached copy of the
last-fetched lifecycle state. -/
structure SandboxInstance where
  state : WorkspaceState
  deriving DecidableEq, Repr

/-- A provider sandbox handle: opaque identifier plus the cached instance
metadata (`sandbox.id`, `sandbox.instance.state`). -/
structure Sandbox where
  id : String
  inst : SandboxInstance
  deriving DecidableEq, Repr

/-- `daytona_sdk.SessionExecuteRequest`: the payload of
`process.execute_session_command`. -/
structure SessionExecuteRequest where
  command : String
  var_async : Bool
  deriving DecidableEq, Repr

/-- `daytona_sdk.CreateSandboxParams` as used by `create_sandbox`:
display name, deployment target, image tag and environment variables. -/
structure CreateSandboxParams where
  name : String
  target_id : Option String
  image : String
  env_vars : List (String × String)
  deriving DecidableEq, Repr

/-- Python exception values distinguished by the module: `ValueError`
(not-found conditions), `RuntimeError` (precondition violations in the
accessors), and any exception coming out of an external call. -/
inductive PyError where
  | valueError (msg : String)
  | runtimeError (msg : String)
  | other (msg : String)
  deriving DecidableEq, Repr

/-- One external call issued by the module: either the database query of
`_ensure_sandbox` or one of the five provider operations. -/
inductive Call where
  | db (project_id : String)
  | fetch (sandbox_id : String)
  | start (sandbox : Sandbox)
  | createSession (sandbox : Sandbox) (session_id : String)
  | execSession (sandbox : Sandbox) (session_id : String) (req : SessionExecuteRequest)
  | create (params : CreateSandboxParams)
  deriving DecidableEq, Repr

/-- Whether a call goes to the sandbox provider (everything except the
database query). -/
def Call.isProviderCall : Call → Bool
  | .db _ => false
  | _ => true

/-- The provider oracle: each operation consumes the abstract provider
state `σ` and answers with either a value or an exception, plus the
successor state.  `fetch` is `daytona.get_current_sandbox`, `start` is
`daytona.start`, `createSession` is `sandbox.process.create_session`,
`execSession` is `sandbox.process.execute_session_command`, `create` is
`daytona.create`. -/
structure Provider (σ : Type) where
  fetch : String → σ → Except PyError Sandbox × σ
  start : Sandbox → σ → Except PyError Unit × σ
  createSession : Sandbox → String → σ → Except PyError Unit × σ
  execSession : Sandbox → String → SessionExecuteRequest → σ → Except PyError Unit × σ
  create : CreateSandboxParams → σ → Except PyError Sandbox × σ

/-- Result of one embedded provider-facing operation: the Python return
value or the propagated exception, the provider state afterwards, and the
ordered list of external calls issued. -/
structure CallResult (σ : Type) (α : Type) where
  result : Except PyError α
  provState : σ
  trace : List Call
  deriving Repr

/-- The fixed session id used by `start_supervisord_session`. -/
def supervisordSessionId : String := "supervisord-session"

/-- The `SessionExecuteRequest` built by `start_supervisord_session`. -/
def supervisordRequest : SessionExecuteRequest :=
  { command := "exec /usr/bin/supervisord -n -c /etc/supervisor/conf.d/supervisord.conf"
    var_async := true }

/-- `start_supervisord_session(sandbox)`: open the fixed-name session, then
launch supervisord in it asynchronously; any exception is logged and
re-raised unchanged. -/
def start_supervisord_session {σ : Type} (P : Provider σ) (sandbox : Sandbox)
    (s : σ) : CallResult σ Unit :=
  let session_id := supervisordSessionId
  match P.createSession sandbox session_id s with
  | (.error e, s1) => ⟨.error e, s1, [.createSession sandbox session_id]⟩
  | (.ok _, s1) =>
    match P.execSession sandbox session_id supervisordRequest s1 with
    | (.error e, s2) =>
        ⟨.error e, s2,
          [.createSession sandbox session_id,
           .execSession sandbox session_id supervisordRequest]⟩
    | (.ok _, s2) =>
        ⟨.ok (), s2,
          [.createSession sandbox session_id,
           .execSession sandbox session_id supervisordRequest]⟩

/-- The state test of `get_or_start_sandbox`:
`sandbox.instance.state == ARCHIVED or sandbox.instance.state == STOPPED`. -/
def needsStart (sandbox : Sandbox) : Bool :=
  sandbox.inst.state = WorkspaceState.archived
    ∨ sandbox.inst.state = WorkspaceState.stopped

/-- `get_or_start_sandbox(sandbox_id)`: fetch the sandbox; if its state is
archived or stopped, start it, re-fetch it, and bootstrap supervisord,
returning the re-fetched handle; otherwise return the fetched handle.
Every exception is logged and re-raised unchanged. -/
def get_or_start_sandbox {σ : Type} (P : Provider σ) (sandbox_id : String)
    (s : σ) : CallResult σ Sandbox :=
  match P.fetch sandbox_id s with
  | (.error e, s1) => ⟨.error e, s1, [.fetch sandbox_id]⟩
  | (.ok sandbox, s1) =>
    if needsStart sandbox then
      match P.start sandbox s1 with
      | (.error e, s2) => ⟨.error e, s2, [.fetch sandbox_id, .start sandbox]⟩
      | (.ok _, s2) =>
        match P.fetch sandbox_id s2 with
        | (.error e, s3) =>
            ⟨.error e, s3, [.fetch sandbox_id, .start sandbox, .fetch sandbox_id]⟩
        | (.ok sandbox2, s3) =>
          let r := start_supervisord_session P sandbox2 s3
          match r.result with
          | .error e =>
              ⟨.error e, r.provState,
                [.fetch sandbox_id, .start sandbox, .fetch sandbox_id] ++ r.trace⟩
          | .ok _ =>
              ⟨.ok sandbox2, r.provState,
                [.fetch sandbox_id, .start sandbox, .fetch sandbox_id] ++ r.trace⟩
    else ⟨.ok sandbox, s1, [.fetch sandbox_id]⟩

/-- Python truthiness of an optional string: `None` and the empty string
are falsy (`project_id or str(uuid.uuid4())`,
`if not sandbox_info.get('id')`). -/
def truthyStr : Option String → Bool
  | none => false
  | some s => !(s = "")

/-- `project_id or str(uuid.uuid4())`: the supplied project id when it is
truthy, otherwise the freshly generated identifier (the uuid draw is an
oracle input `generated_id`). -/
def current_sandbox_id_of (project_id : Option String) (generated_id : String) : String :=
  if truthyStr project_id then project_id.getD generated_id else generated_id

/-- The environment-variable payload of `create_sandbox`, carrying the
caller-supplied password as `VNC_PASSWORD`. -/
def env_vars_payload (password : String) : List (String × String) :=
  [("CHROME_PERSISTENT_SESSION", "true"),
   ("RESOLUTION", "1024x768x24"),
   ("RESOLUTION_WIDTH", "1024"),
   ("RESOLUTION_HEIGHT", "768"),
   ("VNC_PASSWORD", password),
   ("ANONYMIZED_TELEMETRY", "false"),
   ("CHROME_PATH", ""),
   ("CHROME_USER_DATA", ""),
   ("CHROME_DEBUGGING_PORT", "9222"),
   ("CHROME_DEBUGGING_HOST", "localhost"),
   ("CHROME_CDP", "")]

/-- The `CreateSandboxParams` built by `create_sandbox` for a given
identifier: name `"Sandbox-"` plus the first 8 characters of the id, the
configured deployment target, the fixed image tag, and the environment
payload. -/
def create_params (password : String) (current_sandbox_id : String)
    (target : Option String) : CreateSandboxParams :=
  { name := "Sandbox-" ++ current_sandbox_id.take 8
    target_id := target
    image := "adamcohenhillel/kortix-suna:0.0.20"
    env_vars := env_vars_payload password }

/-- `create_sandbox(password, project_id)`: build the creation parameters,
invoke provider creation, then bootstrap supervisord on the new instance;
any exception is logged and re-raised unchanged, with no cleanup of a
partially created sandbox.  `target` is `daytona_config.target` and
`generated_id` the `uuid.uuid4()` draw. -/
def create_sandbox {σ : Type} (P : Provider σ) (target : Option String)
    (password : String) (project_id : Option String) (generated_id : String)
    (s : σ) : CallResult σ Sandbox :=
  let current_sandbox_id := current_sandbox_id_of project_id generated_id
  let params := create_params password current_sandbox_id target
  match P.create params s with
  | (.error e, s1) => ⟨.error e, s1, [.create params]⟩
  | (.ok new_sandbox, s1) =>
    let r := start_supervisord_session P new_sandbox s1
    match r.result with
    | .error e => ⟨.error e, r.provState, Call.create params :: r.trace⟩
    | .ok _ => ⟨.ok new_sandbox, r.provState, Call.create params :: r.trace⟩

/-- The embedded `sandbox` map of a project record: the optional `id` and
`pass` entries. -/
structure SandboxInfo where
  id : Option String
  pass : Option String
  deriving DecidableEq, Repr

/-- A project record row as read by `_ensure_sandbox`: only the embedded
`sandbox` map matters (absent when the row has no `sandbox` key). -/
structure ProjectData where
  sandbox : Option SandboxInfo
  deriving DecidableEq, Repr

/-- The database oracle: the rows returned by
`client.table('projects').select('*').eq('project_id', pid).execute()`. -/
abbrev DB := String → List ProjectData

/-- The mutable fields of a `SandboxToolsBase` instance. -/
structure SandboxToolsBase where
  project_id : String
  workspace_path : String
  _sandbox : Option Sandbox
  _sandbox_id : Option String
  _sandbox_pass : Option String
  deriving DecidableEq, Repr

/-- `SandboxToolsBase.__init__(project_id, ...)`: all three sandbox fields
start out `None` and the workspace root is fixed. -/
def SandboxToolsBase.init (project_id : String) : SandboxToolsBase :=
  { project_id := project_id
    workspace_path := "/workspace"
    _sandbox := none
    _sandbox_id := none
    _sandbox_pass := none }

/-- Result of `_ensure_sandbox`: the Python return value or exception, the
instance afterwards, the provider state afterwards, and the external calls
issued. -/
structure EnsureResult (σ : Type) where
  result : Except PyError Sandbox
  self : SandboxToolsBase
  provState : σ
  trace : List Call
  deriving Repr

/-- `_ensure_sandbox()`: when `_sandbox` is unset, query the project
record, fail with `ValueError` when the project or its sandbox id is
missing, otherwise store the id and optional password on the instance and
delegate to `get_or_start_sandbox`, storing the resulting handle; when
`_sandbox` is already set, return it without any external call.  Note that
the id and password are stored before the provider call, so a provider
failure leaves them set while `_sandbox` stays unset. -/
def SandboxToolsBase.ensure_sandbox {σ : Type} (P : Provider σ) (db : DB)
    (self : SandboxToolsBase) (s : σ) : EnsureResult σ :=
  match self._sandbox with
  | some sandbox => ⟨.ok sandbox, self, s, []⟩
  | none =>
    match db self.project_id with
    | [] =>
        ⟨.error (.valueError ("Project " ++ self.project_id ++ " not found")),
          self, s, [.db self.project_id]⟩
    | project_data :: _ =>
      let sandbox_info := project_data.sandbox.getD ⟨none, none⟩
      if truthyStr sandbox_info.id then
        let self1 : SandboxToolsBase :=
          { self with
              _sandbox_id := some (sandbox_info.id.getD "")
              _sandbox_pass := sandbox_info.pass }
        let r := get_or_start_sandbox P (sandbox_info.id.getD "") s
        match r.result with
        | .error e => ⟨.error e, self1, r.provState, Call.db self.project_id :: r.trace⟩
        | .ok sandbox =>
            ⟨.ok sandbox, { self1 with _sandbox := some sandbox },
              r.provState, Call.db self.project_id :: r.trace⟩
      else
        ⟨.error (.valueError ("No sandbox found for project " ++ self.project_id)),
          self, s, [.db self.project_id]⟩

/-- The `sandbox` property: `RuntimeError` when `_sandbox` is unset,
else the cached handle.  Reads no other state. -/
def SandboxToolsBase.sandbox (self : SandboxToolsBase) : Except PyError Sandbox :=
  match self._sandbox with
  | none => .error (.runtimeError "Sandbox not initialized. Call _ensure_sandbox() first.")
  | some sandbox => .ok sandbox

/-- The `sandbox_id` property: `RuntimeError` when `_sandbox_id` is unset,
else the cached id.  Reads no other state. -/
def SandboxToolsBase.sandbox_id (self : SandboxToolsBase) : Except PyError String :=
  match self._sandbox_id with
  | none => .error (.runtimeError "Sandbox ID not initialized. Call _ensure_sandbox() first.")
  | some i => .ok i

/-- Character-level prefix test (Python `str.startswith`), stated over the
string's character list so it evaluates structurally. -/
def strStartsWith (s pre : String) : Bool :=
  pre.data.isPrefixOf s.data

/-- Modelled from the spec: the body of `clean_path` lives in
`utils/files_utils.py`, which is not part of this snapshot; only its call
site `clean_path(path, self.workspace_path)` is.  Per the spec it
"normalizes a caller-supplied path to be relative to a fixed workspace
root" with no side effect beyond logging: a leading workspace-root prefix,
a leading `./` and a leading `/` are stripped so the result is
workspace-relative. -/
def files_utils_clean_path (path : String) (workspace_path : String) : String :=
  let p :=
    if strStartsWith path (workspace_path ++ "/") then
      path.drop (workspace_path.length + 1)
    else if strStartsWith path workspace_path then
      path.drop workspace_path.length
    else path
  let p := if strStartsWith p "./" then p.drop 2 else p
  if strStartsWith p "/" then p.drop 1 else p

/-- `SandboxToolsBase.clean_path(path)`: delegate to the shared helper with
the instance's workspace root; the instance is read only through
`workspace_path` and is not modified. -/
def SandboxToolsBase.clean_path (self : SandboxToolsBase) (path : String) : String :=
  files_utils_clean_path path self.workspace_path

/-- Instance states reachable from `__init__(pid)` by any sequence of
operations.  `ensure_sandbox` is the only operation that writes instance
fields; the accessors and `clean_path` are read-only by their definitions
above, and are still listed as (identity) steps so that "after any
sequence of operations" quantifies over them too. -/
inductive Reach {σ : Type} (P : Provider σ) (db : DB) (pid : String) :
    SandboxToolsBase → σ → Prop where
  | init (s0 : σ) : Reach P db pid (SandboxToolsBase.init pid) s0
  | ensure {self : SandboxToolsBase} {s : σ} :
      Reach P db pid self s →
      Reach P db pid (self.ensure_sandbox P db s).self (self.ensure_sandbox P db s).provState
  | readSandbox {self : SandboxToolsBase} {s : σ} :
      Reach P db pid self s → Reach P db pid self s
  | readSandboxId {self : SandboxToolsBase} {s : σ} :
      Reach P db pid self s → Reach P db pid self s
  | cleanPath (path : String) {self : SandboxToolsBase} {s : σ} :
      Reach P db pid self s → Reach P db pid self s

/-- Whether a call is a provider start. -/
def Call.isStart : Call → Bool
  | .start _ => true
  | _ => false

/-- Whether a call is a provider fetch. -/
def Call.isFetch : Call → Bool
  | .fetch _ => true
  | _ => false

/-- Whether a call opens a session (first half of the supervisor
bootstrap). -/
def Call.isCreateSession : Call → Bool
  | .createSession _ _ => true
  | _ => false

/-- Whether a call executes a session command (second half of the
supervisor bootstrap). -/
def Call.isExecSession : Call → Bool
  | .execSession _ _ _ => true
  | _ => false

/-! ## Concrete oracles used by witnesses and counterexamples -/

/-- A concrete provider over `Nat` states: each successful call advances
the state by one, and selected states make one specific operation fail, so
that every failure point of the module is realisable. -/
def Pw : Provider Nat :=
  { fetch := fun sid s =>
      if s = 0 ∨ s = 5 then (.error (.other "fetchboom"), s)
      else if s = 100 then (.ok ⟨sid, ⟨.started⟩⟩, s + 1)
      else (.ok ⟨sid, ⟨.stopped⟩⟩, s + 1)
    start := fun _ s =>
      if s = 10 then (.error (.other "startboom"), s) else (.ok (), s + 1)
    createSession := fun _ _ s =>
      if s = 20 then (.error (.other "sessboom"), s) else (.ok (), s + 1)
    execSession := fun _ _ _ s =>
      if s = 30 then (.error (.other "execboom"), s) else (.ok (), s + 1)
    create := fun _ s =>
      if s = 40 then (.error (.other "createboom"), s)
      else (.ok ⟨"new", ⟨.started⟩⟩, s + 1) }

/-- A database oracle with no row for any project. -/
def dbEmpty : DB := fun _ => []

/-- A database oracle whose single row has a sandbox map without an `id`
entry. -/
def dbNoId : DB := fun _ => [⟨some ⟨none, some "pw"⟩⟩]

/-- A database oracle whose single row carries both `id` and `pass`. -/
def dbGood : DB := fun _ => [⟨some ⟨some "sb1", some "pw"⟩⟩]

/-- A database oracle whose single row carries an `id` but no `pass`. -/
def dbNoPass : DB := fun _ => [⟨some ⟨some "sb1", none⟩⟩]

/-- The claimed all-unset half of the C2 invariant: none of the three
sandbox fields is populated. -/
def sandboxFieldsAllUnset (t : SandboxToolsBase) : Prop :=
  t._sandbox = none ∧ t._sandbox_id = none ∧ t._sandbox_pass = none

/-- The claimed all-set half of the C2 invariant: every one of the three
sandbox fields is populated. -/
def sandboxFieldsAllSet (t : SandboxToolsBase) : Prop :=
  t._sandbox ≠ none ∧ t._sandbox_id ≠ none ∧ t._sandbox_pass ≠ none

/-- The invariant the code actually maintains: when `_sandbox_id` is unset
nothing is set, and a populated `_sandbox` implies a populated
`_sandbox_id`; `_sandbox_pass` and (after a provider failure) `_sandbox`
can lag behind `_sandbox_id`. -/
def partialResolutionInv (t : SandboxToolsBase) : Prop :=
  (t._sandbox_id = none → sandboxFieldsAllUnset t) ∧
  (t._sandbox.isSome = true → t._sandbox_id.isSome = true)

/-! ## Claim theorems -/

/-- C1: for every sandbox returned by the provider fetch,
`get_or_start_sandbox` invokes start, then re-fetches, then bootstraps the
supervisor (session creation followed by the session command) exactly once
each, if and only if the fetched state is archived or stopped; for any
other fetched state it issues no further call and returns the fetched
handle unchanged. -/
theorem C1_resolution_start_iff :
    (∀ (σ : Type) (P : Provider σ) (sid : String) (s s1 : σ) (sb : Sandbox),
      P.fetch sid s = (.ok sb, s1) → needsStart sb = false →
      get_or_start_sandbox P sid s = ⟨.ok sb, s1, [.fetch sid]⟩) ∧
    (∀ (σ : Type) (P : Provider σ) (sid : String) (s s1 s2 s3 s4 s5 : σ)
        (sb sb2 : Sandbox),
      P.fetch sid s = (.ok sb, s1) → needsStart sb = true →
      P.start sb s1 = (.ok (), s2) →
      P.fetch sid s2 = (.ok sb2, s3) →
      P.createSession sb2 supervisordSessionId s3 = (.ok (), s4) →
      P.execSession sb2 supervisordSessionId supervisordRequest s4 = (.ok (), s5) →
      get_or_start_sandbox P sid s =
        ⟨.ok sb2, s5,
          [.fetch sid, .start sb, .fetch sid,
           .createSession sb2 supervisordSessionId,
           .execSession sb2 supervisordSessionId supervisordRequest]⟩ ∧
      (get_or_start_sandbox P sid s).trace.countP (fun c => c.isStart) = 1 ∧
      (get_or_start_sandbox P sid s).trace.countP (fun c => c.isCreateSession) = 1 ∧
      (get_or_start_sandbox P sid s).trace.countP (fun c => c.isExecSession) = 1 ∧
      (get_or_start_sandbox P sid s).trace.countP (fun c => c.isFetch) = 2) := by
  constructor
  · intro σ P sid s s1 sb hf hns
    simp [get_or_start_sandbox, hf, hns]
  · intro σ P sid s s1 s2 s3 s4 s5 sb sb2 hf hns hst hf2 hcs hex
    have hsss : start_supervisord_session P sb2 s3 =
        ⟨.ok (), s5,
          [.createSession sb2 supervisordSessionId,
           .execSession sb2 supervisordSessionId supervisordRequest]⟩ := by
      simp [start_supervisord_session, hcs, hex]
    have heq : get_or_start_sandbox P sid s =
        ⟨.ok sb2, s5,
          [.fetch sid, .start sb, .fetch sid,
           .createSession sb2 supervisordSessionId,
           .execSession sb2 supervisordSessionId supervisordRequest]⟩ := by
      simp [get_or_start_sandbox, hf, hns, hst, hf2, hsss]
    refine ⟨heq, ?_, ?_, ?_, ?_⟩ <;>
      simp [heq, List.countP, List.countP.go,
        Call.isStart, Call.isCreateSession, Call.isExecSession, Call.isFetch]

/-- Witness for C1: on the concrete provider, a fetch returning a started
sandbox yields only the fetch call, and a fetch returning a stopped
sandbox yields the full start/re-fetch/bootstrap sequence. -/
theorem C1_resolution_start_iff_witness :
    get_or_start_sandbox Pw "sb" 100 =
      ⟨.ok ⟨"sb", ⟨.started⟩⟩, 101, [.fetch "sb"]⟩ ∧
    get_or_start_sandbox Pw "sb" 50 =
      ⟨.ok ⟨"sb", ⟨.stopped⟩⟩, 55,
        [.fetch "sb", .start ⟨"sb", ⟨.stopped⟩⟩, .fetch "sb",
         .createSession ⟨"sb", ⟨.stopped⟩⟩ supervisordSessionId,
         .execSession ⟨"sb", ⟨.stopped⟩⟩ supervisordSessionId supervisordRequest]⟩ :=
  ⟨C1_resolution_start_iff.1 Nat Pw "sb" 100 101 ⟨"sb", ⟨.started⟩⟩ rfl (by decide),
   (C1_resolution_start_iff.2 Nat Pw "sb" 50 51 52 53 54 55
      ⟨"sb", ⟨.stopped⟩⟩ ⟨"sb", ⟨.stopped⟩⟩ rfl (by decide) rfl rfl rfl rfl).1⟩

/-- C5: the creation parameters passed to the provider carry the
caller-supplied password unchanged as `VNC_PASSWORD`; when no project id
is supplied the freshly generated identifier is used; and the display
name is `"Sandbox-"` followed by the first 8 characters of the
identifier. -/
theorem C5_create_sandbox_params :
    ∀ (σ : Type) (P : Provider σ) (target : Option String) (password : String)
      (project_id : Option String) (generated_id : String) (s : σ),
      ∃ rest,
        (create_sandbox P target password project_id generated_id s).trace =
          Call.create
            (create_params password (current_sandbox_id_of project_id generated_id) target)
            :: rest ∧
        (create_params password (current_sandbox_id_of project_id generated_id)
            target).env_vars.lookup "VNC_PASSWORD" = some password ∧
        (create_params password (current_sandbox_id_of project_id generated_id)
            target).name =
          "Sandbox-" ++ (current_sandbox_id_of project_id generated_id).take 8 ∧
        (project_id = none →
          current_sandbox_id_of project_id generated_id = generated_id) := by
  intro σ P target password project_id generated_id s
  refine ⟨?_, ?_, rfl, rfl, ?_⟩
  · exact (create_sandbox P target password project_id generated_id s).trace.tail
  · unfold create_sandbox
    rcases hcr : P.create
        (create_params password (current_sandbox_id_of project_id generated_id) target) s
      with ⟨r0, s1⟩
    cases r0 with
    | error e => simp [hcr]
    | ok nb =>
      simp only [hcr]
      cases hr : (start_supervisord_session P nb s1).result <;> simp [hr]
  · intro hp
    simp [hp, current_sandbox_id_of, truthyStr]

/-- Witness for C5: on the concrete provider with no supplied project id,
the generated identifier is used and the password reaches `VNC_PASSWORD`. -/
theorem C5_create_sandbox_params_witness :
    (create_params "pw" (current_sandbox_id_of none "gen-id-12345") (some "t")).env_vars.lookup
        "VNC_PASSWORD" = some "pw" ∧
    current_sandbox_id_of none "gen-id-12345" = "gen-id-12345" := by
  obtain ⟨rest, htr, hlook, hname, hgen⟩ :=
    C5_create_sandbox_params Nat Pw (some "t") "pw" none "gen-id-12345" 50
  exact ⟨hlook, hgen rfl⟩

/-- C7: every provider-call failure is propagated unchanged by
`start_supervisord_session` (session creation or session command),
`create_sandbox` (creation or subsequent bootstrap — the created sandbox
is left as created, with no further call after the failure), and
`get_or_start_sandbox` (fetch, start, re-fetch, or bootstrap); the traces
show the failing call is not retried and nothing runs after it. -/
theorem C7_failures_propagate_unchanged :
    (∀ (σ : Type) (P : Provider σ) (sb : Sandbox) (s s1 : σ) (e : PyError),
      P.createSession sb supervisordSessionId s = (.error e, s1) →
      start_supervisord_session P sb s =
        ⟨.error e, s1, [.createSession sb supervisordSessionId]⟩) ∧
    (∀ (σ : Type) (P : Provider σ) (sb : Sandbox) (s s1 s2 : σ) (e : PyError),
      P.createSession sb supervisordSessionId s = (.ok (), s1) →
      P.execSession sb supervisordSessionId supervisordRequest s1 = (.error e, s2) →
      start_supervisord_session P sb s =
        ⟨.error e, s2,
          [.createSession sb supervisordSessionId,
           .execSession sb supervisordSessionId supervisordRequest]⟩) ∧
    (∀ (σ : Type) (P : Provider σ) (target : Option String) (password : String)
        (project_id : Option String) (generated_id : String) (s s1 : σ) (e : PyError),
      P.create (create_params password (current_sandbox_id_of project_id generated_id)
          target) s = (.error e, s1) →
      create_sandbox P target password project_id generated_id s =
        ⟨.error e, s1,
          [.create (create_params password
            (current_sandbox_id_of project_id generated_id) target)]⟩) ∧
    (∀ (σ : Type) (P : Provider σ) (target : Option String) (password : String)
        (project_id : Option String) (generated_id : String) (s s1 : σ)
        (nb : Sandbox) (e : PyError),
      P.create (create_params password (current_sandbox_id_of project_id generated_id)
          target) s = (.ok nb, s1) →
      (start_supervisord_session P nb s1).result = .error e →
      create_sandbox P target password project_id generated_id s =
        ⟨.error e, (start_supervisord_session P nb s1).provState,
          Call.create (create_params password
              (current_sandbox_id_of project_id generated_id) target)
            :: (start_supervisord_session P nb s1).trace⟩) ∧
    (∀ (σ : Type) (P : Provider σ) (sid : String) (s s1 : σ) (e : PyError),
      P.fetch sid s = (.error e, s1) →
      get_or_start_sandbox P sid s = ⟨.error e, s1, [.fetch sid]⟩) ∧
    (∀ (σ : Type) (P : Provider σ) (sid : String) (s s1 s2 : σ) (sb : Sandbox)
        (e : PyError),
      P.fetch sid s = (.ok sb, s1) → needsStart sb = true →
      P.start sb s1 = (.error e, s2) →
      get_or_start_sandbox P sid s = ⟨.error e, s2, [.fetch sid, .start sb]⟩) ∧
    (∀ (σ : Type) (P : Provider σ) (sid : String) (s s1 s2 s3 : σ) (sb : Sandbox)
        (e : PyError),
      P.fetch sid s = (.ok sb, s1) → needsStart sb = true →
      P.start sb s1 = (.ok (), s2) →
      P.fetch sid s2 = (.error e, s3) →
      get_or_start_sandbox P sid s =
        ⟨.error e, s3, [.fetch sid, .start sb, .fetch sid]⟩) ∧
    (∀ (σ : Type) (P : Provider σ) (sid : String) (s s1 s2 s3 : σ)
        (sb sb2 : Sandbox) (e : PyError),
      P.fetch sid s = (.ok sb, s1) → needsStart sb = true →
      P.start sb s1 = (.ok (), s2) →
      P.fetch sid s2 = (.ok sb2, s3) →
      (start_supervisord_session P sb2 s3).result = .error e →
      get_or_start_sandbox P sid s =
        ⟨.error e, (start_supervisord_session P sb2 s3).provState,
          [.fetch sid, .start sb, .fetch sid]
            ++ (start_supervisord_session P sb2 s3).trace⟩) := by
  refine ⟨?_, ?_, ?_, ?_, ?_, ?_, ?_, ?_⟩
  · intro σ P sb s s1 e hcs
    simp [start_supervisord_session, hcs]
  · intro σ P sb s s1 s2 e hcs hex
    simp [start_supervisord_session, hcs, hex]
  · intro σ P target password project_id generated_id s s1 e hcr
    simp [create_sandbox, hcr]
  · intro σ P target password project_id generated_id s s1 nb e hcr hr
    simp [create_sandbox, hcr, hr]
  · intro σ P sid s s1 e hf
    simp [get_or_start_sandbox, hf]
  · intro σ P sid s s1 s2 sb e hf hns hst
    simp [get_or_start_sandbox, hf, hns, hst]
  · intro σ P sid s s1 s2 s3 sb e hf hns hst hf2
    simp [get_or_start_sandbox, hf, hns, hst, hf2]
  · intro σ P sid s s1 s2 s3 sb sb2 e hf hns hst hf2 hr
    simp [get_or_start_sandbox, hf, hns, hst, hf2, hr]

/-- Witness for C7: on the concrete provider, every one of the eight
failure points occurs at its designated state and the error value comes
back unchanged with the expected trace. -/
theorem C7_failures_propagate_unchanged_witness :
    start_supervisord_session Pw ⟨"x", ⟨WorkspaceState.stopped⟩⟩ 20 =
      ⟨.error (.other "sessboom"), 20,
        [.createSession ⟨"x", ⟨WorkspaceState.stopped⟩⟩ supervisordSessionId]⟩ ∧
    start_supervisord_session Pw ⟨"x", ⟨WorkspaceState.stopped⟩⟩ 29 =
      ⟨.error (.other "execboom"), 30,
        [.createSession ⟨"x", ⟨WorkspaceState.stopped⟩⟩ supervisordSessionId,
         .execSession ⟨"x", ⟨WorkspaceState.stopped⟩⟩ supervisordSessionId
           supervisordRequest]⟩ ∧
    create_sandbox Pw (some "t") "pw" none "gen" 40 =
      ⟨.error (.other "createboom"), 40,
        [.create (create_params "pw" (current_sandbox_id_of none "gen") (some "t"))]⟩ ∧
    create_sandbox Pw (some "t") "pw" none "gen" 19 =
      ⟨.error (.other "sessboom"),
        (start_supervisord_session Pw ⟨"new", ⟨WorkspaceState.started⟩⟩ 20).provState,
        Call.create (create_params "pw" (current_sandbox_id_of none "gen") (some "t"))
          :: (start_supervisord_session Pw ⟨"new", ⟨WorkspaceState.started⟩⟩ 20).trace⟩ ∧
    get_or_start_sandbox Pw "sb" 0 = ⟨.error (.other "fetchboom"), 0, [.fetch "sb"]⟩ ∧
    get_or_start_sandbox Pw "sb" 9 =
      ⟨.error (.other "startboom"), 10,
        [.fetch "sb", .start ⟨"sb", ⟨WorkspaceState.stopped⟩⟩]⟩ ∧
    get_or_start_sandbox Pw "sb" 3 =
      ⟨.error (.other "fetchboom"), 5,
        [.fetch "sb", .start ⟨"sb", ⟨WorkspaceState.stopped⟩⟩, .fetch "sb"]⟩ ∧
    get_or_start_sandbox Pw "sb" 17 =
      ⟨.error (.other "sessboom"),
        (start_supervisord_session Pw ⟨"sb", ⟨WorkspaceState.stopped⟩⟩ 20).provState,
        [.fetch "sb", .start ⟨"sb", ⟨WorkspaceState.stopped⟩⟩, .fetch "sb"]
          ++ (start_supervisord_session Pw ⟨"sb", ⟨WorkspaceState.stopped⟩⟩ 20).trace⟩ := by
  refine ⟨?_, ?_, ?_, ?_, ?_, ?_, ?_, ?_⟩
  · exact C7_failures_propagate_unchanged.1 Nat Pw ⟨"x", ⟨.stopped⟩⟩ 20 20
      (.other "sessboom") rfl
  · exact C7_failures_propagate_unchanged.2.1 Nat Pw ⟨"x", ⟨.stopped⟩⟩ 29 30 30
      (.other "execboom") rfl rfl
  · exact C7_failures_propagate_unchanged.2.2.1 Nat Pw (some "t") "pw" none "gen" 40 40
      (.other "createboom") rfl
  · exact C7_failures_propagate_unchanged.2.2.2.1 Nat Pw (some "t") "pw" none "gen" 19 20
      ⟨"new", ⟨.started⟩⟩ (.other "sessboom") rfl rfl
  · exact C7_failures_propagate_unchanged.2.2.2.2.1 Nat Pw "sb" 0 0
      (.other "fetchboom") rfl
  · exact C7_failures_propagate_unchanged.2.2.2.2.2.1 Nat Pw "sb" 9 10 10
      ⟨"sb", ⟨.stopped⟩⟩ (.other "startboom") rfl (by decide) rfl
  · exact C7_failures_propagate_unchanged.2.2.2.2.2.2.1 Nat Pw "sb" 3 4 5 5
      ⟨"sb", ⟨.stopped⟩⟩ (.other "fetchboom") rfl (by decide) rfl rfl
  · exact C7_failures_propagate_unchanged.2.2.2.2.2.2.2 Nat Pw "sb" 17 18 19 20
      ⟨"sb", ⟨.stopped⟩⟩ ⟨"sb", ⟨.stopped⟩⟩ (.other "sessboom") rfl (by decide) rfl rfl rfl

/-- An `_ensure_sandbox` call that returns a handle has stored that very
handle in `_sandbox`. -/
theorem ensure_result_sandbox {σ : Type} (P : Provider σ) (db : DB)
    (self : SandboxToolsBase) (s : σ) (sb : Sandbox)
    (h : (self.ensure_sandbox P db s).result = .ok sb) :
    (self.ensure_sandbox P db s).self._sandbox = some sb := by
  cases hs : self._sandbox with
  | some sb0 =>
    simp [SandboxToolsBase.ensure_sandbox, hs] at h ⊢
    exact h
  | none =>
    cases hdb : db self.project_id with
    | nil => simp [SandboxToolsBase.ensure_sandbox, hs, hdb] at h
    | cons pd rest =>
      cases ht : truthyStr (pd.sandbox.getD ⟨none, none⟩).id with
      | false => simp [SandboxToolsBase.ensure_sandbox, hs, hdb, ht] at h
      | true =>
        cases hr : (get_or_start_sandbox P
            ((pd.sandbox.getD ⟨none, none⟩).id.getD "") s).result with
        | error e => simp [SandboxToolsBase.ensure_sandbox, hs, hdb, ht, hr] at h
        | ok sb1 =>
          simp [SandboxToolsBase.ensure_sandbox, hs, hdb, ht, hr] at h ⊢
          exact h

/-- `_ensure_sandbox` never writes `project_id` or `workspace_path`. -/
theorem ensure_frame {σ : Type} (P : Provider σ) (db : DB)
    (self : SandboxToolsBase) (s : σ) :
    (self.ensure_sandbox P db s).self.project_id = self.project_id ∧
    (self.ensure_sandbox P db s).self.workspace_path = self.workspace_path := by
  cases hs : self._sandbox with
  | some sb0 => simp [SandboxToolsBase.ensure_sandbox, hs]
  | none =>
    cases hdb : db self.project_id with
    | nil => simp [SandboxToolsBase.ensure_sandbox, hs, hdb]
    | cons pd rest =>
      cases ht : truthyStr (pd.sandbox.getD ⟨none, none⟩).id with
      | false => simp [SandboxToolsBase.ensure_sandbox, hs, hdb, ht]
      | true =>
        cases hr : (get_or_start_sandbox P
            ((pd.sandbox.getD ⟨none, none⟩).id.getD "") s).result with
        | error e => simp [SandboxToolsBase.ensure_sandbox, hs, hdb, ht, hr]
        | ok sb1 => simp [SandboxToolsBase.ensure_sandbox, hs, hdb, ht, hr]

/-- One `_ensure_sandbox` step preserves the invariant the code actually
maintains. -/
theorem ensure_preserves_partialResolutionInv {σ : Type} (P : Provider σ)
    (db : DB) (self : SandboxToolsBase) (s : σ)
    (h : partialResolutionInv self) :
    partialResolutionInv (self.ensure_sandbox P db s).self := by
  cases hs : self._sandbox with
  | some sb0 =>
    simpa [SandboxToolsBase.ensure_sandbox, hs] using h
  | none =>
    cases hdb : db self.project_id with
    | nil => simpa [SandboxToolsBase.ensure_sandbox, hs, hdb] using h
    | cons pd rest =>
      cases ht : truthyStr (pd.sandbox.getD ⟨none, none⟩).id with
      | false => simpa [SandboxToolsBase.ensure_sandbox, hs, hdb, ht] using h
      | true =>
        cases hr : (get_or_start_sandbox P
            ((pd.sandbox.getD ⟨none, none⟩).id.getD "") s).result with
        | error e =>
          simp [SandboxToolsBase.ensure_sandbox, hs, hdb, ht, hr,
            partialResolutionInv, sandboxFieldsAllUnset]
        | ok sb1 =>
          simp [SandboxToolsBase.ensure_sandbox, hs, hdb, ht, hr,
            partialResolutionInv, sandboxFieldsAllUnset]

/-- C3: for a missing project record, and for a record whose sandbox map
lacks a (truthy) `id` entry, `_ensure_sandbox` raises the corresponding
`ValueError`, leaves the instance and provider untouched, and issues no
provider call — its only external call is the database query. -/
theorem C3_missing_sandbox_not_found :
    (∀ (σ : Type) (P : Provider σ) (db : DB) (self : SandboxToolsBase) (s : σ),
      self._sandbox = none → db self.project_id = [] →
      self.ensure_sandbox P db s =
        ⟨.error (.valueError ("Project " ++ self.project_id ++ " not found")),
          self, s, [.db self.project_id]⟩ ∧
      ∀ c ∈ (self.ensure_sandbox P db s).trace, c.isProviderCall = false) ∧
    (∀ (σ : Type) (P : Provider σ) (db : DB) (self : SandboxToolsBase) (s : σ)
        (pd : ProjectData) (rest : List ProjectData),
      self._sandbox = none → db self.project_id = pd :: rest →
      truthyStr (pd.sandbox.getD ⟨none, none⟩).id = false →
      self.ensure_sandbox P db s =
        ⟨.error (.valueError ("No sandbox found for project " ++ self.project_id)),
          self, s, [.db self.project_id]⟩ ∧
      ∀ c ∈ (self.ensure_sandbox P db s).trace, c.isProviderCall = false) := by
  constructor
  · intro σ P db self s hs hdb
    have he : self.ensure_sandbox P db s =
        ⟨.error (.valueError ("Project " ++ self.project_id ++ " not found")),
          self, s, [.db self.project_id]⟩ := by
      simp [SandboxToolsBase.ensure_sandbox, hs, hdb]
    refine ⟨he, ?_⟩
    simp [he, Call.isProviderCall]
  · intro σ P db self s pd rest hs hdb ht
    have he : self.ensure_sandbox P db s =
        ⟨.error (.valueError ("No sandbox found for project " ++ self.project_id)),
          self, s, [.db self.project_id]⟩ := by
      simp [SandboxToolsBase.ensure_sandbox, hs, hdb, ht]
    refine ⟨he, ?_⟩
    simp [he, Call.isProviderCall]

/-- Witness for C3: a fresh instance against the empty database, and
against the database whose row has no sandbox id, gets the matching
`ValueError` with only the database query in the trace. -/
theorem C3_missing_sandbox_not_found_witness :
    (SandboxToolsBase.init "p1").ensure_sandbox Pw dbEmpty 0 =
      ⟨.error (.valueError "Project p1 not found"),
        SandboxToolsBase.init "p1", 0, [.db "p1"]⟩ ∧
    (SandboxToolsBase.init "p1").ensure_sandbox Pw dbNoId 0 =
      ⟨.error (.valueError "No sandbox found for project p1"),
        SandboxToolsBase.init "p1", 0, [.db "p1"]⟩ :=
  ⟨(C3_missing_sandbox_not_found.1 Nat Pw dbEmpty
      (SandboxToolsBase.init "p1") 0 rfl rfl).1,
   (C3_missing_sandbox_not_found.2 Nat Pw dbNoId
      (SandboxToolsBase.init "p1") 0 ⟨some ⟨none, some "pw"⟩⟩ [] rfl rfl rfl).1⟩

/-- C6: once `_ensure_sandbox` has succeeded, every later call returns the
same cached handle with an empty call trace — no database query and no
provider call — and leaves instance and provider state unchanged. -/
theorem C6_ensure_idempotent :
    ∀ (σ : Type) (P : Provider σ) (db : DB) (self : SandboxToolsBase) (s : σ)
      (sb : Sandbox),
      (self.ensure_sandbox P db s).result = .ok sb →
      ∀ s' : σ,
        ((self.ensure_sandbox P db s).self).ensure_sandbox P db s' =
          ⟨.ok sb, (self.ensure_sandbox P db s).self, s', []⟩ := by
  intro σ P db self s sb h s'
  have h2 := ensure_result_sandbox P db self s sb h
  generalize hT : (self.ensure_sandbox P db s).self = T at h2 ⊢
  simp [SandboxToolsBase.ensure_sandbox, h2]

/-- Witness for C6: a resolution that succeeded on the concrete provider
answers the second call from the cache with an empty trace. -/
theorem C6_ensure_idempotent_witness :
    ((SandboxToolsBase.init "p1").ensure_sandbox Pw dbGood 50).self.ensure_sandbox
        Pw dbGood 55 =
      ⟨.ok ⟨"sb1", ⟨WorkspaceState.stopped⟩⟩,
        ((SandboxToolsBase.init "p1").ensure_sandbox Pw dbGood 50).self, 55, []⟩ :=
  C6_ensure_idempotent Nat Pw dbGood (SandboxToolsBase.init "p1") 50
    ⟨"sb1", ⟨WorkspaceState.stopped⟩⟩ rfl 55

/-- C10: a project record carrying a sandbox `id` but no `pass` still
resolves: the instance caches the id, caches `None` as the password, and
stores the handle returned by the resolver. -/
theorem C10_resolution_without_pass :
    ∀ (σ : Type) (P : Provider σ) (db : DB) (self : SandboxToolsBase) (s : σ)
      (pd : ProjectData) (rest : List ProjectData) (i : String) (sb : Sandbox),
      self._sandbox = none →
      db self.project_id = pd :: rest →
      pd.sandbox = some ⟨some i, none⟩ →
      truthyStr (some i) = true →
      (get_or_start_sandbox P i s).result = .ok sb →
      self.ensure_sandbox P db s =
        ⟨.ok sb,
          { self with
              _sandbox := some sb
              _sandbox_id := some i
              _sandbox_pass := none },
          (get_or_start_sandbox P i s).provState,
          Call.db self.project_id :: (get_or_start_sandbox P i s).trace⟩ := by
  intro σ P db self s pd rest i sb hs hdb hsi ht hr
  simp [SandboxToolsBase.ensure_sandbox, hs, hdb, hsi, ht, hr]

/-- Witness for C10: the pass-less database row resolves on the concrete
provider and the cached password is `none`. -/
theorem C10_resolution_without_pass_witness :
    (SandboxToolsBase.init "p1").ensure_sandbox Pw dbNoPass 50 =
      ⟨.ok ⟨"sb1", ⟨WorkspaceState.stopped⟩⟩,
        { SandboxToolsBase.init "p1" with
            _sandbox := some ⟨"sb1", ⟨WorkspaceState.stopped⟩⟩
            _sandbox_id := some "sb1"
            _sandbox_pass := none },
        (get_or_start_sandbox Pw "sb1" 50).provState,
        Call.db "p1" :: (get_or_start_sandbox Pw "sb1" 50).trace⟩ :=
  C10_resolution_without_pass Nat Pw dbNoPass (SandboxToolsBase.init "p1") 50
    ⟨some ⟨some "sb1", none⟩⟩ [] "sb1" ⟨"sb1", ⟨WorkspaceState.stopped⟩⟩
    rfl rfl rfl (by decide) rfl

/-- Counterexample to C2 as stated: a reachable instance — a fresh tool
whose `_ensure_sandbox` failed because the provider fetch raised — has
`_sandbox_id` and `_sandbox_pass` set while `_sandbox` is unset, so the
sandbox fields are neither all unset nor all set. -/
theorem C2_counterexample_partial_resolution :
    Reach Pw dbGood "p1"
      ((SandboxToolsBase.init "p1").ensure_sandbox Pw dbGood 0).self
      ((SandboxToolsBase.init "p1").ensure_sandbox Pw dbGood 0).provState ∧
    ¬ (sandboxFieldsAllUnset ((SandboxToolsBase.init "p1").ensure_sandbox Pw dbGood 0).self ∨
       sandboxFieldsAllSet ((SandboxToolsBase.init "p1").ensure_sandbox Pw dbGood 0).self) := by
  refine ⟨Reach.ensure (Reach.init 0), ?_⟩
  have e : ((SandboxToolsBase.init "p1").ensure_sandbox Pw dbGood 0).self =
      { project_id := "p1"
        workspace_path := "/workspace"
        _sandbox := none
        _sandbox_id := some "sb1"
        _sandbox_pass := some "pw" } := rfl
  rw [e]
  simp [sandboxFieldsAllUnset, sandboxFieldsAllSet]

/-- C2 amended: after construction all three sandbox fields are unset, and
on every reachable instance a populated `_sandbox` implies a populated
`_sandbox_id`, with an unset `_sandbox_id` implying all three are unset;
but the fields need not be set together — a raising `_ensure_sandbox`
leaves `_sandbox_id`/`_sandbox_pass` set without `_sandbox`, and a
record without `pass` resolves with `_sandbox_pass` unset. -/
theorem C2_fields_invariant_amended :
    ∀ (σ : Type) (P : Provider σ) (db : DB) (pid : String)
      (self : SandboxToolsBase) (s : σ),
      Reach P db pid self s →
      sandboxFieldsAllUnset (SandboxToolsBase.init pid) ∧
      partialResolutionInv self := by
  intro σ P db pid self s h
  refine ⟨by simp [sandboxFieldsAllUnset, SandboxToolsBase.init], ?_⟩
  induction h with
  | init s0 => simp [partialResolutionInv, sandboxFieldsAllUnset, SandboxToolsBase.init]
  | ensure a ih => exact ensure_preserves_partialResolutionInv _ _ _ _ ih
  | readSandbox a ih => exact ih
  | readSandboxId a ih => exact ih
  | cleanPath path a ih => exact ih

/-- Witness for C2 amended: a successful resolution reaches a state where
`_sandbox` is set and the invariant then forces `_sandbox_id` to be set. -/
theorem C2_fields_invariant_amended_witness :
    partialResolutionInv ((SandboxToolsBase.init "p1").ensure_sandbox Pw dbGood 50).self ∧
    (((SandboxToolsBase.init "p1").ensure_sandbox Pw dbGood 50).self._sandbox_id).isSome
      = true := by
  have h := C2_fields_invariant_amended Nat Pw dbGood "p1" _ _ (Reach.ensure (Reach.init 50))
  exact ⟨h.2, h.2.2 (by decide)⟩

/-- Counterexample to C4 as stated: on a fresh instance whose
`_ensure_sandbox` raised inside provider resolution — so it has never
successfully run — the `sandbox_id` accessor does not raise but returns
the cached id. -/
theorem C4_counterexample_id_readable_after_failure :
    ((SandboxToolsBase.init "p1").ensure_sandbox Pw dbGood 0).result =
      .error (.other "fetchboom") ∧
    ((SandboxToolsBase.init "p1").ensure_sandbox Pw dbGood 0).self._sandbox = none ∧
    (((SandboxToolsBase.init "p1").ensure_sandbox Pw dbGood 0).self).sandbox_id =
      .ok "sb1" :=
  ⟨rfl, rfl, rfl⟩

/-- C4 amended: the `sandbox` accessor raises `RuntimeError` whenever
`_sandbox` is unset — in particular before any resolution — and only ever
returns a handle actually cached in `_sandbox`; the `sandbox_id` accessor
raises `RuntimeError` whenever `_sandbox_id` is unset — true on a freshly
constructed instance — but after an `_ensure_sandbox` that failed during
provider resolution it returns the already-cached id instead of
raising. -/
theorem C4_accessors_guard_amended :
    ∀ (t : SandboxToolsBase),
      (t._sandbox = none →
        t.sandbox =
          .error (.runtimeError "Sandbox not initialized. Call _ensure_sandbox() first.")) ∧
      (t._sandbox_id = none →
        t.sandbox_id =
          .error (.runtimeError "Sandbox ID not initialized. Call _ensure_sandbox() first.")) ∧
      (∀ sb, t.sandbox = .ok sb → t._sandbox = some sb) ∧
      (∀ i, t.sandbox_id = .ok i → t._sandbox_id = some i) ∧
      (SandboxToolsBase.init t.project_id)._sandbox = none ∧
      (SandboxToolsBase.init t.project_id)._sandbox_id = none := by
  intro t
  refine ⟨?_, ?_, ?_, ?_, rfl, rfl⟩
  · intro h
    simp [SandboxToolsBase.sandbox, h]
  · intro h
    simp [SandboxToolsBase.sandbox_id, h]
  · intro sb h
    cases ht : t._sandbox with
    | none => simp [SandboxToolsBase.sandbox, ht] at h
    | some sb0 =>
      simp [SandboxToolsBase.sandbox, ht] at h
      rw [h]
  · intro i h
    cases ht : t._sandbox_id with
    | none => simp [SandboxToolsBase.sandbox_id, ht] at h
    | some i0 =>
      simp [SandboxToolsBase.sandbox_id, ht] at h
      rw [h]

/-- Witness for C4 amended: on a freshly constructed instance both
accessors raise their `RuntimeError`. -/
theorem C4_accessors_guard_amended_witness :
    (SandboxToolsBase.init "p0").sandbox =
      .error (.runtimeError "Sandbox not initialized. Call _ensure_sandbox() first.") ∧
    (SandboxToolsBase.init "p0").sandbox_id =
      .error (.runtimeError "Sandbox ID not initialized. Call _ensure_sandbox() first.") := by
  have h := C4_accessors_guard_amended (SandboxToolsBase.init "p0")
  exact ⟨h.1 rfl, h.2.1 rfl⟩

/-- C9: on every instance state reachable from construction by any
sequence of operations, `project_id` still equals the constructor argument
and `workspace_path` still equals the fixed workspace root. -/
theorem C9_project_id_immutable :
    ∀ (σ : Type) (P : Provider σ) (db : DB) (pid : String)
      (self : SandboxToolsBase) (s : σ),
      Reach P db pid self s →
      self.project_id = pid ∧ self.workspace_path = "/workspace" := by
  intro σ P db pid self s h
  induction h with
  | init s0 => exact ⟨rfl, rfl⟩
  | ensure a ih =>
    obtain ⟨h1, h2⟩ := ensure_frame _ _ _ _
    exact ⟨h1.trans ih.1, h2.trans ih.2⟩
  | readSandbox a ih => exact ih
  | readSandboxId a ih => exact ih
  | cleanPath path a ih => exact ih

/-- Witness for C9: after a concrete successful resolution the project id
and workspace root are unchanged. -/
theorem C9_project_id_immutable_witness :
    ((SandboxToolsBase.init "p1").ensure_sandbox Pw dbGood 50).self.project_id = "p1" ∧
    ((SandboxToolsBase.init "p1").ensure_sandbox Pw dbGood 50).self.workspace_path =
      "/workspace" :=
  C9_project_id_immutable Nat Pw dbGood "p1" _ _ (Reach.ensure (Reach.init 50))

/-- C8: `clean_path` maps `"foo/bar"`, `"/workspace/foo/bar"` and
`"./foo/bar"` all to `"foo/bar"`, and its value depends on the instance
only through the fixed workspace root (it neither reads nor writes any
other instance state). -/
theorem C8_clean_path_normalizes :
    ∀ (t : SandboxToolsBase),
      t.workspace_path = "/workspace" →
      (t.clean_path "foo/bar" = "foo/bar" ∧
       t.clean_path "/workspace/foo/bar" = "foo/bar" ∧
       t.clean_path "./foo/bar" = "foo/bar") ∧
      (∀ (t2 : SandboxToolsBase) (path : String),
        t2.workspace_path = t.workspace_path →
        t2.clean_path path = t.clean_path path) := by
  intro t ht
  constructor
  · refine ⟨?_, ?_, ?_⟩ <;> simp [SandboxToolsBase.clean_path, ht] <;> decide
  · intro t2 path h2
    simp [SandboxToolsBase.clean_path, h2]

/-- Witness for C8: the three example paths on a freshly constructed
instance, and agreement between two instances with the same workspace
root. -/
theorem C8_clean_path_normalizes_witness :
    ((SandboxToolsBase.init "p0").clean_path "foo/bar" = "foo/bar" ∧
     (SandboxToolsBase.init "p0").clean_path "/workspace/foo/bar" = "foo/bar" ∧
     (SandboxToolsBase.init "p0").clean_path "./foo/bar" = "foo/bar") ∧
    (SandboxToolsBase.init "q0").clean_path "/workspace/x" =
      (SandboxToolsBase.init "p0").clean_path "/workspace/x" := by
  have h := C8_clean_path_normalizes (SandboxToolsBase.init "p0") rfl
  exact ⟨h.1, h.2 (SandboxToolsBase.init "q0") "/workspace/x" rfl⟩

end Suna
